import Mathlib

/-!
Verification of the response-unification and streaming-aggregation engine of
`haystack/components/generators/chat/openai.py` (`OpenAIChatGenerator`).

The Python source is shallowly embedded: dictionaries become association
lists, fallible attribute/key/index accesses become `Option`/`Except`,
side effects (the transport call, the streaming callback, log warnings)
become explicit fields of the invocation result.
-/

namespace Haystack

/-- Roles of a chat message.  Modelled from the spec: `ChatRole` of
`haystack.dataclasses` is not under `src/`; the spec lists the enum
`system | user | assistant | function`. -/
inductive ChatRole where
| system
| user
| assistant
| function
deriving DecidableEq, Repr

/-- The wire string of a role (the value of the `str`-enum member). -/
def ChatRole.asString : ChatRole → String
| .system => "system"
| .user => "user"
| .assistant => "assistant"
| .function => "function"

/-- Values stored in a message's `meta` dictionary by this engine. -/
inductive MetaVal where
| str (s : String)
| nat (n : Nat)
| optStr (s : Option String)
| usage (u : List (String × Nat))
deriving DecidableEq, Repr

/-- Python `==` between a meta value and a string literal:
`None == "length"` is `False`, `"length" == "length"` is `True`. -/
def MetaVal.eqStr : MetaVal → String → Bool
| .str s, t => s = t
| .optStr (some s), t => s = t
| _, _ => false

/-- A chat message.  Modelled from the spec: the `ChatMessage` dataclass of
`haystack.dataclasses` is not under `src/`; the spec gives role, content,
optional name and a metadata mapping (fields in dataclass order
content, role, name, meta). -/
structure ChatMessage where
  content : String
  role : ChatRole
  name : Option String
  meta : List (String × MetaVal)
deriving DecidableEq, Repr

/-- `ChatMessage.from_assistant`.  Modelled from the spec: assistant-role
message with the given content, no name, empty metadata. -/
def ChatMessage.from_assistant (content : String) : ChatMessage :=
  { content := content, role := .assistant, name := none, meta := [] }

/-- A streaming chunk.  Modelled from the spec: the `StreamingChunk`
dataclass of `haystack.dataclasses` is not under `src/`; the spec gives
partial text plus partial metadata. -/
structure StreamingChunk where
  content : String
  meta : List (String × MetaVal)
deriving DecidableEq, Repr

/-- Python `dict.update` / `{**d, **u}` on association lists: keys of `d`
keep their position (value replaced when `u` overrides), keys only in `u`
are appended. -/
def dictUpdate {β : Type} (d u : List (String × β)) : List (String × β) :=
  d.map (fun kv => (kv.1, (List.lookup kv.1 u).getD kv.2)) ++
    u.filter (fun kv => (List.lookup kv.1 d).isNone)

/-- Generation-option values (the open-ended kwargs bag forwarded to the
transport). -/
inductive GenVal where
| int (n : Int)
| str (s : String)
deriving DecidableEq, Repr

/-- The generation-options dictionary. -/
abbrev Kwargs := List (String × GenVal)

/-- A callback handle.  Modelled from the spec: the streaming callback is
serialized as a symbolic string reference resolved through a registry of
module-level functions (`serialize_callback_handler` /
`deserialize_callback_handler` are not under `src/`).  `key` is the stable
symbolic name, `action` abstracts the externally observable behaviour. -/
structure Callback where
  key : String
  action : Nat
deriving DecidableEq, Repr

/-- The registry in which symbolic callback references are resolved. -/
abbrev Registry := List Callback

/-- Resolve a symbolic reference in the registry (first match). -/
def resolveCallback (reg : Registry) (key : String) : Option Callback :=
  reg.find? (fun cb => cb.key = key)

/-- The configuration owned by `OpenAIChatGenerator.__init__` (the
transport client and api key are the external collaborator and are not
modelled). -/
structure Generator where
  model_name : String
  generation_kwargs : Kwargs
  streaming_callback : Option Callback
  api_base_url : Option String
  organization : Option String
deriving DecidableEq, Repr

/-! ### Transport response shapes (`openai` types, external boundary) -/

/-- The partial delta of a streamed choice (`choice.delta`): optional text
content and optional function-call fragment. -/
structure ChunkDelta where
  content : Option String
  function_call : Option String
deriving DecidableEq, Repr

/-- One choice of a streamed chunk. -/
structure ChunkChoice where
  delta : ChunkDelta
  index : Nat
  finish_reason : Option String
deriving DecidableEq, Repr

/-- One chunk of a streamed response (`ChatCompletionChunk`). -/
structure RawChunk where
  model : String
  choices : List ChunkChoice
deriving DecidableEq, Repr

/-- A function call carried by a non-streaming choice message. -/
structure FunctionCall where
  name : String
  arguments : String
deriving DecidableEq, Repr

/-- The message of a non-streaming choice (`choice.message`). -/
structure ChoiceMessage where
  content : String
  function_call : Option FunctionCall
deriving DecidableEq, Repr

/-- One choice of a non-streaming completion. -/
structure Choice where
  message : ChoiceMessage
  index : Nat
  finish_reason : Option String
deriving DecidableEq, Repr

/-- A non-streaming completion (`ChatCompletion`). -/
structure Completion where
  model : String
  choices : List Choice
  usage : List (String × Nat)
deriving DecidableEq, Repr

/-- What the transport returns: `run` branches on
`isinstance(chat_completion, Stream)` versus `ChatCompletion`. -/
inductive TransportResponse where
| stream (chunks : List RawChunk)
| completion (c : Completion)
deriving DecidableEq, Repr

/-- Exceptions the embedded code can raise. -/
inductive RunError where
| valueError
| attributeError
| indexError
| keyError
| typeError
deriving DecidableEq, Repr

/-! ### Message Codec: `_convert_to_openai_format` -/

/-- One wire-format record: `none` in a field means the key is absent from
the emitted dict (filtered out by Python truthiness). -/
structure WireRecord where
  content : Option String
  role : Option String
  name : Option String
deriving DecidableEq, Repr

/-- Python truthiness of an optional string. -/
def truthyOptStr : Option String → Bool
| some s => s ≠ ""
| none => false

/-- `_convert_to_openai_format`: for each message take
`dataclasses.asdict`, keep only the keys `role`, `content`, `name` whose
value is truthy. -/
def convertToOpenAIFormat (messages : List ChatMessage) : List WireRecord :=
  messages.map (fun m =>
    { content := if m.content ≠ "" then some m.content else none,
      role := if m.role.asString ≠ "" then some m.role.asString else none,
      name := if truthyOptStr m.name then m.name else none })

/-! ### Streaming: `_build_chunk`, the chunk loop, `_connect_chunks` -/

/-- `_build_chunk`: content is the delta's text if truthy, else the
function-call fragment if truthy, else `""`; meta records model, choice
index and finish reason. -/
def buildChunk (chunk : RawChunk) (choice : ChunkChoice) : StreamingChunk :=
  let has_content := truthyOptStr choice.delta.content
  let has_function_call := truthyOptStr choice.delta.function_call
  let content :=
    if has_content then choice.delta.content.getD ""
    else if has_function_call then choice.delta.function_call.getD ""
    else ""
  { content := content,
    meta := [("model", MetaVal.str chunk.model),
             ("index", MetaVal.nat choice.index),
             ("finish_reason", MetaVal.optStr choice.finish_reason)] }

/-- The streaming loop of `run`: a chunk is converted, buffered and
delivered to the callback exactly when `chunk.choices` is non-empty and a
callback is configured; the buffer and the callback trace coincide. -/
def processChunks (cbConfigured : Bool) : List RawChunk → List StreamingChunk
| [] => []
| c :: rest =>
  match c.choices.head? with
  | some ch =>
    if cbConfigured then buildChunk c ch :: processChunks cbConfigured rest
    else processChunks cbConfigured rest
  | none => processChunks cbConfigured rest

/-- The concatenation `"".join([chunk.content for chunk in chunks])`. -/
def joinedContent (chunks : List StreamingChunk) : String :=
  String.join (chunks.map (fun c => c.content))

/-- `_connect_chunks`: folds the buffered chunks into one assistant
message.  `chunk` is the loop variable after the stream is drained —
`none` when the stream was empty (then `chunk.model` raises
`AttributeError`); an empty `chunk.choices` makes `chunk.choices[0]`
raise `IndexError`. -/
def connectChunks (chunk : Option RawChunk) (chunks : List StreamingChunk) :
    Except RunError ChatMessage :=
  match chunk with
  | none => .error .attributeError
  | some c =>
    match c.choices.head? with
    | none => .error .indexError
    | some ch =>
      .ok { ChatMessage.from_assistant (joinedContent chunks) with
            meta := dictUpdate []
              [("model", MetaVal.str c.model),
               ("index", MetaVal.nat 0),
               ("finish_reason", MetaVal.optStr ch.finish_reason),
               ("usage", MetaVal.usage [])] }

/-! ### `json.dumps` for the function-call payload -/

/-- Lower-case hexadecimal digit. -/
def hexDigit (n : Nat) : Char :=
  if n < 10 then Char.ofNat (48 + n) else Char.ofNat (87 + n)

/-- Four-digit hexadecimal rendering used by `\u` escapes. -/
def hex4 (n : Nat) : String :=
  String.mk [hexDigit (n / 4096 % 16), hexDigit (n / 256 % 16),
             hexDigit (n / 16 % 16), hexDigit (n % 16)]

/-- `json.dumps` escaping of one character (`ensure_ascii=True`: escape
backslash, quote, the short escapes, every char outside `0x20`–`0x7e`,
non-BMP code points as surrogate pairs). -/
def jsonEscapeChar (c : Char) : String :=
  if c = '\\' then "\\\\"
  else if c = '"' then "\\\""
  else if c = '\n' then "\\n"
  else if c = '\r' then "\\r"
  else if c = '\t' then "\\t"
  else if c.toNat = 8 then "\\b"
  else if c.toNat = 12 then "\\f"
  else if c.toNat < 32 ∨ c.toNat > 126 then
    if c.toNat < 65536 then "\\u" ++ hex4 c.toNat
    else
      let v := c.toNat - 65536
      "\\u" ++ hex4 (55296 + v / 1024) ++ "\\u" ++ hex4 (56320 + v % 1024)
  else String.singleton c

/-- `json.dumps` rendering of a string. -/
def jsonString (s : String) : String :=
  "\"" ++ String.join (s.data.map jsonEscapeChar) ++ "\""

/-- `json.dumps({"name": name, "arguments": arguments})` with the default
separators. -/
def jsonDumpsFunctionCall (name arguments : String) : String :=
  "\x7b\"name\": " ++ jsonString name ++ ", \"arguments\": " ++
    jsonString arguments ++ "\x7d"

/-! ### Response Builder: `_build_message` -/

/-- `_build_message`: a `"function_call"` choice renders the call as a
JSON object (accessing `message.function_call` — `AttributeError` when it
is absent), any other choice passes `message.content` through verbatim;
meta records the completion model, the choice index and finish reason, and
a copy of the completion-level usage counters. -/
def buildMessage (completion : Completion) (choice : Choice) :
    Except RunError ChatMessage :=
  if choice.finish_reason = some "function_call" then
    match choice.message.function_call with
    | none => .error .attributeError
    | some fc =>
      .ok { ChatMessage.from_assistant (jsonDumpsFunctionCall fc.name fc.arguments) with
            meta := dictUpdate []
              [("model", MetaVal.str completion.model),
               ("index", MetaVal.nat choice.index),
               ("finish_reason", MetaVal.optStr choice.finish_reason),
               ("usage", MetaVal.usage completion.usage)] }
  else
    .ok { ChatMessage.from_assistant choice.message.content with
          meta := dictUpdate []
            [("model", MetaVal.str completion.model),
             ("index", MetaVal.nat choice.index),
             ("finish_reason", MetaVal.optStr choice.finish_reason),
             ("usage", MetaVal.usage completion.usage)] }

/-- The list comprehension
`[self._build_message(chat_completion, choice) for choice in choices]`:
builds in order, the first raised exception aborts. -/
def buildMessages (completion : Completion) :
    List Choice → Except RunError (List ChatMessage)
| [] => .ok []
| choice :: rest =>
  match buildMessage completion choice with
  | .error e => .error e
  | .ok m =>
    match buildMessages completion rest with
    | .error e => .error e
    | .ok ms => .ok (m :: ms)

/-! ### Finish-Reason Policy: `_check_finish_reason` -/

/-- A diagnostic report emitted by `_check_finish_reason` (the payload is
the `index` meta value interpolated into the warning text). -/
inductive Warning where
| lengthTruncation (index : MetaVal)
| contentFilter (index : MetaVal)
deriving DecidableEq, Repr

/-- `_check_finish_reason`: two independent `if`s on
`message.meta["finish_reason"]`; each fired branch reads
`message.meta["index"]`.  `none` models a `KeyError` on a missing key;
otherwise the list of warnings logged, in order. -/
def checkFinishReason (message : ChatMessage) : Option (List Warning) := do
  let fr ← List.lookup "finish_reason" message.meta
  let w1 ← if fr.eqStr "length" then do
      let idx ← List.lookup "index" message.meta
      pure [Warning.lengthTruncation idx]
    else pure ([] : List Warning)
  let w2 ← if fr.eqStr "content_filter" then do
      let idx ← List.lookup "index" message.meta
      pure [Warning.contentFilter idx]
    else pure ([] : List Warning)
  pure (w1 ++ w2)

/-- The post-processing loop of `run`: `_check_finish_reason` over every
completion, collecting the warnings; `none` when a lookup raised. -/
def postProcess : List ChatMessage → Option (List Warning)
| [] => some []
| m :: rest => do
  let w ← checkFinishReason m
  let ws ← postProcess rest
  pure (w ++ ws)

/-! ### Generator Facade: `run` -/

/-- `generation_kwargs.pop("n", 1)` followed by `num_responses > 1`:
`some n` when "n" is absent (default 1) or bound to an int, `none` when
comparing a non-int to 1 would raise `TypeError`. -/
def getNumResponses (kw : Kwargs) : Option Int :=
  match List.lookup "n" kw with
  | none => some 1
  | some (GenVal.int n) => some n
  | some _ => none

deriving instance DecidableEq for Except

/-- Everything observable about one `run` invocation: whether and with
what arguments the transport's `completions.create` was called, the trace
of streaming-callback deliveries (in call order), the logged warnings,
the returned replies or the raised exception, and the generator state
after the call. -/
structure RunResult where
  transportCalled : Bool
  sentOptions : Kwargs
  sentStream : Bool
  sentMessages : List WireRecord
  callbackCalls : List StreamingChunk
  warnings : List Warning
  outcome : Except RunError (List ChatMessage)
  generatorAfter : Generator
deriving DecidableEq, Repr

/-- `OpenAIChatGenerator.run`: merge kwargs, encode messages, issue the
transport call (`stream` iff a callback is configured), then branch on the
response shape; streaming drains the chunk loop and finalizes through
`_connect_chunks` (after checking `n > 1`), non-streaming builds one
message per choice; finally `_check_finish_reason` runs over every
completion.  The transport response is passed in as `resp`. -/
def Generator.run (g : Generator) (messages : List ChatMessage)
    (generation_kwargs : Option Kwargs) (resp : TransportResponse) : RunResult :=
  let merged := dictUpdate g.generation_kwargs (generation_kwargs.getD [])
  let formatted := convertToOpenAIFormat messages
  let base : RunResult :=
    { transportCalled := true,
      sentOptions := merged,
      sentStream := g.streaming_callback.isSome,
      sentMessages := formatted,
      callbackCalls := [],
      warnings := [],
      outcome := .ok [],
      generatorAfter := g }
  match resp with
  | .stream raw =>
    match getNumResponses merged with
    | none => { base with outcome := .error .typeError }
    | some n =>
      if n > 1 then { base with outcome := .error .valueError }
      else
        let chunks := processChunks g.streaming_callback.isSome raw
        match connectChunks raw.getLast? chunks with
        | .error e => { base with callbackCalls := chunks, outcome := .error e }
        | .ok m =>
          match postProcess [m] with
          | none => { base with callbackCalls := chunks, outcome := .error .keyError }
          | some ws =>
            { base with callbackCalls := chunks, warnings := ws, outcome := .ok [m] }
  | .completion c =>
    match buildMessages c c.choices with
    | .error e => { base with outcome := .error e }
    | .ok msgs =>
      match postProcess msgs with
      | none => { base with outcome := .error .keyError }
      | some ws => { base with warnings := ws, outcome := .ok msgs }

/-! ### Serialization: `to_dict` / `from_dict` -/

/-- The persisted record emitted by `to_dict` (its `init_parameters`;
`default_to_dict` is framework glue out of scope).  Modelled from the
spec: model identifier, symbolic callback reference or absent, base
endpoint, organization, default generation options. -/
structure SerializedGenerator where
  model_name : String
  streaming_callback : Option String
  api_base_url : Option String
  organization : Option String
  generation_kwargs : Kwargs
deriving DecidableEq, Repr

/-- `to_dict`: the callback is serialized to its symbolic name when set,
`None` otherwise; the remaining configuration fields are emitted
verbatim. -/
def Generator.to_dict (g : Generator) : SerializedGenerator :=
  { model_name := g.model_name,
    streaming_callback := g.streaming_callback.map (fun cb => cb.key),
    api_base_url := g.api_base_url,
    organization := g.organization,
    generation_kwargs := g.generation_kwargs }

/-- `from_dict`: when the serialized callback reference is truthy it is
resolved through the registry (`none` models the deserialization error
when the reference cannot be resolved); then the configuration is
reconstructed. -/
def Generator.from_dict (reg : Registry) (data : SerializedGenerator) :
    Option Generator :=
  match data.streaming_callback with
  | some key =>
    if key ≠ "" then
      match resolveCallback reg key with
      | some cb =>
        some { model_name := data.model_name,
               generation_kwargs := data.generation_kwargs,
               streaming_callback := some cb,
               api_base_url := data.api_base_url,
               organization := data.organization }
      | none => none
    else
      some { model_name := data.model_name,
             generation_kwargs := data.generation_kwargs,
             streaming_callback := none,
             api_base_url := data.api_base_url,
             organization := data.organization }
  | none =>
    some { model_name := data.model_name,
           generation_kwargs := data.generation_kwargs,
           streaming_callback := none,
           api_base_url := data.api_base_url,
           organization := data.organization }

/-! ### Concrete fixtures for witness evaluations -/

/-- A registered sample callback (a module-level function handle). -/
def sampleCallback : Callback := { key := "utils.print_streaming_chunk", action := 0 }

/-- A generator with a streaming callback configured and no default
options. -/
def streamingGen : Generator :=
  { model_name := "gpt-3.5-turbo", generation_kwargs := [],
    streaming_callback := some sampleCallback,
    api_base_url := none, organization := none }

/-- A streamed chunk whose single choice carries no content. -/
def emptyDeltaChunk : RawChunk :=
  { model := "gpt-3.5-turbo",
    choices := [{ delta := { content := none, function_call := none },
                  index := 0, finish_reason := some "stop" }] }

/-- A streamed chunk with an empty choice list. -/
def noChoiceChunk : RawChunk := { model := "gpt-3.5-turbo", choices := [] }

/-- A non-streaming completion with a text choice and a function-call
choice. -/
def twoChoiceCompletion : Completion :=
  { model := "gpt-4", usage := [("prompt_tokens", 5), ("completion_tokens", 7)],
    choices := [
      { message := { content := "hi", function_call := none },
        index := 0, finish_reason := some "stop" },
      { message := { content := "",
                     function_call := some { name := "f", arguments := "\x7b\x7d" } },
        index := 1, finish_reason := some "function_call" }] }

/-- The two messages `_build_message` produces for
`twoChoiceCompletion`. -/
def twoChoiceMessages : List ChatMessage :=
  [{ content := "hi", role := ChatRole.assistant, name := none,
     meta := [("model", MetaVal.str "gpt-4"), ("index", MetaVal.nat 0),
              ("finish_reason", MetaVal.optStr (some "stop")),
              ("usage", MetaVal.usage [("prompt_tokens", 5), ("completion_tokens", 7)])] },
   { content := jsonDumpsFunctionCall "f" "\x7b\x7d", role := ChatRole.assistant, name := none,
     meta := [("model", MetaVal.str "gpt-4"), ("index", MetaVal.nat 1),
              ("finish_reason", MetaVal.optStr (some "function_call")),
              ("usage", MetaVal.usage [("prompt_tokens", 5), ("completion_tokens", 7)])] }]

/-- An input message whose `name` is the empty string. -/
def nameEmptyMsg : ChatMessage :=
  { content := "hello", role := ChatRole.user, name := some "", meta := [] }

/-- A finalized message whose finish reason is `"length"`. -/
def lengthMsg : ChatMessage :=
  { content := "x", role := ChatRole.assistant, name := none,
    meta := [("model", MetaVal.str "gpt-4"), ("index", MetaVal.nat 3),
             ("finish_reason", MetaVal.optStr (some "length")),
             ("usage", MetaVal.usage [])] }

/-- A registry holding the sample callback. -/
def sampleRegistry : Registry := [sampleCallback]

/-! ## Helper lemmas -/

theorem lookup_append {β : Type} (k : String) (l1 l2 : List (String × β)) :
    List.lookup k (l1 ++ l2) =
      match List.lookup k l1 with
      | some v => some v
      | none => List.lookup k l2 := by
  induction l1 with
  | nil => rfl
  | cons a l ih =>
    obtain ⟨ka, va⟩ := a
    by_cases h : k = ka
    · have hb : (k == ka) = true := beq_iff_eq.mpr h
      simp [List.lookup, hb]
    · have hb : (k == ka) = false := beq_false_of_ne h
      simp [List.lookup, hb, ih]

theorem lookup_map_override {β : Type} (k : String) (d u : List (String × β)) :
    List.lookup k (d.map (fun kv => (kv.1, (List.lookup kv.1 u).getD kv.2)))
      = (List.lookup k d).map (fun v => (List.lookup k u).getD v) := by
  induction d with
  | nil => rfl
  | cons a l ih =>
    obtain ⟨ka, va⟩ := a
    by_cases h : k = ka
    · subst h
      have hb : (k == k) = true := beq_iff_eq.mpr rfl
      simp [List.lookup, hb]
    · have hb : (k == ka) = false := beq_false_of_ne h
      simp [List.lookup, hb, ih]

theorem lookup_filter_notin {β : Type} (k : String) (d u : List (String × β)) :
    List.lookup k (u.filter (fun kv => (List.lookup kv.1 d).isNone))
      = if (List.lookup k d).isNone then List.lookup k u else none := by
  induction u with
  | nil => simp [List.lookup]
  | cons a l ih =>
    obtain ⟨ka, va⟩ := a
    by_cases hk : k = ka
    · subst hk
      have hb : (k == k) = true := beq_iff_eq.mpr rfl
      by_cases hd : (List.lookup k d).isNone
      · simp [List.filter, hd, List.lookup, hb, ih]
      · have hpf := Bool.of_not_eq_true hd
        simp [List.filter, hpf, ih]
    · have hb : (k == ka) = false := beq_false_of_ne hk
      by_cases hd : (List.lookup ka d).isNone
      · simp [List.filter, hd, List.lookup, hb, ih]
      · have hpf := Bool.of_not_eq_true hd
        simp [List.filter, hpf, ih, List.lookup, hb]

/-- The key-wise semantics of Python's `{**d, **u}`: the value under `k`
is `u`'s when `u` binds `k`, else `d`'s. -/
theorem lookup_dictUpdate {β : Type} (k : String) (d u : List (String × β)) :
    List.lookup k (dictUpdate d u) =
      match List.lookup k u with
      | some v => some v
      | none => List.lookup k d := by
  unfold dictUpdate
  rw [lookup_append, lookup_map_override, lookup_filter_notin]
  cases hd : List.lookup k d <;> cases hu : List.lookup k u <;> simp

/-- Updating the empty dictionary gives the update itself. -/
theorem dictUpdate_nil {β : Type} (u : List (String × β)) :
    dictUpdate [] u = u := by
  unfold dictUpdate
  have : ∀ l : List (String × β),
      l.filter (fun kv => (List.lookup kv.1 ([] : List (String × β))).isNone) = l := by
    intro l
    induction l with
    | nil => rfl
    | cons a l ih => simp [List.filter, List.lookup, ih]
  simp [this]

/-- The shape of every message `_build_message` returns: assistant role,
no name, the four meta keys, and the content rule of the two branches. -/
theorem build_message_ok (completion : Completion) (choice : Choice)
    (m : ChatMessage) (h : buildMessage completion choice = .ok m) :
    m.role = ChatRole.assistant ∧ m.name = none ∧
    m.meta = [("model", MetaVal.str completion.model),
              ("index", MetaVal.nat choice.index),
              ("finish_reason", MetaVal.optStr choice.finish_reason),
              ("usage", MetaVal.usage completion.usage)] ∧
    (∀ fc, choice.finish_reason = some "function_call" →
      choice.message.function_call = some fc →
      m.content = jsonDumpsFunctionCall fc.name fc.arguments) ∧
    (choice.finish_reason ≠ some "function_call" →
      m.content = choice.message.content) := by
  unfold buildMessage at h
  by_cases hfr : choice.finish_reason = some "function_call"
  · simp only [hfr, if_pos] at h
    cases hfc : choice.message.function_call with
    | none => rw [hfc] at h; cases h
    | some fc =>
      rw [hfc] at h
      cases h
      refine ⟨rfl, rfl, ?_, ?_, ?_⟩
      · rw [dictUpdate_nil]; rw [hfr]
      · intro fc2 _ hfc2
        cases hfc2
        rfl
      · intro hne; exact absurd hfr hne
  · rw [if_neg hfr] at h
    cases h
    refine ⟨rfl, rfl, by rw [dictUpdate_nil], ?_, ?_⟩
    · intro fc hfr2 _; exact absurd hfr2 hfr
    · intro _; rfl

/-- The shape of every message `_connect_chunks` returns on success. -/
theorem connect_chunks_ok (oc : Option RawChunk) (chunks : List StreamingChunk)
    (m : ChatMessage) (h : connectChunks oc chunks = .ok m) :
    ∃ c ch, oc = some c ∧ c.choices.head? = some ch ∧
      m = { content := joinedContent chunks, role := ChatRole.assistant,
            name := none,
            meta := [("model", MetaVal.str c.model),
                     ("index", MetaVal.nat 0),
                     ("finish_reason", MetaVal.optStr ch.finish_reason),
                     ("usage", MetaVal.usage [])] } := by
  cases oc with
  | none => simp [connectChunks] at h
  | some c =>
    cases hh : c.choices.head? with
    | none => simp [connectChunks, hh] at h
    | some ch =>
      refine ⟨c, ch, rfl, hh, ?_⟩
      simp [connectChunks, hh, dictUpdate_nil] at h
      rw [← h]
      rfl

/-- With a configured callback, the chunk loop's delivery trace is the
arrival-ordered conversion of exactly the chunks that have a choice. -/
theorem processChunks_filterMap (raw : List RawChunk) :
    processChunks true raw
      = raw.filterMap (fun c => (c.choices.head?).map (buildChunk c)) := by
  induction raw with
  | nil => rfl
  | cons c rest ih =>
    cases h : c.choices.head? with
    | none => simp [processChunks, h, List.filterMap_cons, ih]
    | some ch => simp [processChunks, h, List.filterMap_cons, ih]

/-- `_check_finish_reason` raises no `KeyError` on a message whose meta
binds `finish_reason` and `index`. -/
theorem checkFinishReason_some_of_keys (m : ChatMessage) (fr idx : MetaVal)
    (hfr : List.lookup "finish_reason" m.meta = some fr)
    (hidx : List.lookup "index" m.meta = some idx) :
    (checkFinishReason m).isSome := by
  unfold checkFinishReason
  rw [hfr]
  cases h1 : fr.eqStr "length" <;> cases h2 : fr.eqStr "content_filter" <;>
    simp [Option.bind, hidx, h1, h2]

/-- The post-processing loop succeeds when every message passes
`_check_finish_reason` without a `KeyError`. -/
theorem postProcess_isSome (msgs : List ChatMessage)
    (h : ∀ m ∈ msgs, (checkFinishReason m).isSome) :
    (postProcess msgs).isSome := by
  induction msgs with
  | nil => rfl
  | cons m rest ih =>
    have hm := h m (List.mem_cons_self m rest)
    obtain ⟨w, hw⟩ := Option.isSome_iff_exists.mp hm
    have hrest := ih (fun x hx => h x (List.mem_cons_of_mem m hx))
    obtain ⟨ws, hws⟩ := Option.isSome_iff_exists.mp hrest
    simp [postProcess, hw, hws]

/-- `run` always sends the merged options to the transport, in every
branch. -/
theorem run_sentOptions (g : Generator) (messages : List ChatMessage)
    (kw : Option Kwargs) (resp : TransportResponse) :
    (g.run messages kw resp).sentOptions
      = dictUpdate g.generation_kwargs (kw.getD []) := by
  unfold Generator.run
  cases resp <;> dsimp only <;> (repeat' split) <;> rfl

/-- `run` never mutates the stored configuration, in every branch. -/
theorem run_generatorAfter (g : Generator) (messages : List ChatMessage)
    (kw : Option Kwargs) (resp : TransportResponse) :
    (g.run messages kw resp).generatorAfter = g := by
  unfold Generator.run
  cases resp <;> dsimp only <;> (repeat' split) <;> rfl

/-- `run` issues the `completions.create` call in every branch — the call
happens before any response-shape branching. -/
theorem run_transportCalled (g : Generator) (messages : List ChatMessage)
    (kw : Option Kwargs) (resp : TransportResponse) :
    (g.run messages kw resp).transportCalled = true := by
  unfold Generator.run
  cases resp <;> dsimp only <;> (repeat' split) <;> rfl

/-- The `n > 1` check on the streaming branch: `ValueError`, callback
never invoked. -/
theorem run_stream_n_gt1 (g : Generator) (messages : List ChatMessage)
    (kw : Option Kwargs) (raw : List RawChunk) (n : Int)
    (hn : getNumResponses (dictUpdate g.generation_kwargs (kw.getD [])) = some n)
    (h2 : n > 1) :
    (g.run messages kw (.stream raw)).outcome = .error .valueError ∧
    (g.run messages kw (.stream raw)).callbackCalls = [] := by
  unfold Generator.run
  simp only [hn]
  rw [if_pos h2]
  exact ⟨rfl, rfl⟩

/-- The streaming branch with `n ≤ 1`: the callback trace is the chunk
loop's buffer and the outcome is the finalization of that buffer. -/
theorem run_stream_branch (g : Generator) (messages : List ChatMessage)
    (kw : Option Kwargs) (raw : List RawChunk) (n : Int)
    (hn : getNumResponses (dictUpdate g.generation_kwargs (kw.getD [])) = some n)
    (hle : ¬ n > 1) :
    (g.run messages kw (.stream raw)).callbackCalls
        = processChunks g.streaming_callback.isSome raw ∧
    (g.run messages kw (.stream raw)).outcome
        = (match connectChunks raw.getLast?
              (processChunks g.streaming_callback.isSome raw) with
           | .error e => .error e
           | .ok m =>
             match postProcess [m] with
             | none => .error .keyError
             | some _ => .ok [m]) := by
  unfold Generator.run
  simp only [hn]
  rw [if_neg hle]
  cases hc : connectChunks raw.getLast?
      (processChunks g.streaming_callback.isSome raw) with
  | error e => exact ⟨rfl, rfl⟩
  | ok m =>
    cases hp : postProcess [m] with
    | none => simp [hp]
    | some ws => simp [hp]

/-- The non-streaming branch: the outcome is `_build_message` over the
choices followed by the finish-reason post-processing. -/
theorem run_completion_branch (g : Generator) (messages : List ChatMessage)
    (kw : Option Kwargs) (c : Completion) :
    (g.run messages kw (.completion c)).outcome
      = (match buildMessages c c.choices with
         | .error e => .error e
         | .ok msgs =>
           match postProcess msgs with
           | none => .error .keyError
           | some _ => .ok msgs) := by
  unfold Generator.run
  dsimp only
  cases hb : buildMessages c c.choices with
  | error e => simp [hb]
  | ok msgs =>
    cases hp : postProcess msgs with
    | none => simp [hb, hp]
    | some ws => simp [hb, hp]

/-- A successful `_build_message` comprehension is pointwise successful,
in choice order. -/
theorem buildMessages_ok_pointwise (completion : Completion) :
    ∀ (choices : List Choice) (msgs : List ChatMessage),
    buildMessages completion choices = .ok msgs →
    msgs.length = choices.length ∧
    (∀ (i : Nat) ch m, choices[i]? = some ch → msgs[i]? = some m →
      buildMessage completion ch = .ok m) := by
  intro choices
  induction choices with
  | nil =>
    intro msgs h
    cases h
    exact ⟨rfl, by intro i ch m h1 _; simp at h1⟩
  | cons ch0 rest ih =>
    intro msgs h
    cases hb : buildMessage completion ch0 with
    | error e => simp [buildMessages, hb] at h
    | ok m0 =>
      cases hrest : buildMessages completion rest with
      | error e => simp [buildMessages, hb, hrest] at h
      | ok ms =>
        simp [buildMessages, hb, hrest] at h
        obtain ⟨hlen, hpt⟩ := ih ms hrest
        subst h
        constructor
        · simp [hlen]
        · intro i ch m h1 h2
          cases i with
          | zero =>
            simp at h1 h2
            rw [← h1, ← h2]
            exact hb
          | succ j =>
            simp at h1 h2
            exact hpt j ch m h1 h2

/-- Every message of a successful `_build_message` comprehension comes
from `_build_message` on some choice. -/
theorem buildMessages_ok_mem (completion : Completion) :
    ∀ (choices : List Choice) (msgs : List ChatMessage),
    buildMessages completion choices = .ok msgs →
    ∀ m ∈ msgs, ∃ ch, buildMessage completion ch = .ok m := by
  intro choices
  induction choices with
  | nil => intro msgs h; cases h; intro m hm; simp at hm
  | cons ch0 rest ih =>
    intro msgs h
    cases hb : buildMessage completion ch0 with
    | error e => simp [buildMessages, hb] at h
    | ok m0 =>
      cases hrest : buildMessages completion rest with
      | error e => simp [buildMessages, hb, hrest] at h
      | ok ms =>
        simp [buildMessages, hb, hrest] at h
        subst h
        intro m hm
        cases List.mem_cons.mp hm with
        | inl he => exact ⟨ch0, he ▸ hb⟩
        | inr ht => exact ih ms hrest m ht

/-- Full characterization of `_check_finish_reason` when both meta keys
are present: the reports of the two independent `if`s, in order. -/
theorem checkFinishReason_eq (m : ChatMessage) (fr idx : MetaVal)
    (hfr : List.lookup "finish_reason" m.meta = some fr)
    (hidx : List.lookup "index" m.meta = some idx) :
    checkFinishReason m = some
      ((if fr.eqStr "length" then [Warning.lengthTruncation idx] else []) ++
       (if fr.eqStr "content_filter" then [Warning.contentFilter idx] else [])) := by
  unfold checkFinishReason
  rw [hfr]
  cases h1 : fr.eqStr "length" <;> cases h2 : fr.eqStr "content_filter" <;>
    simp [Option.bind, hidx, h1, h2]

/-- A meta value equal (in Python `==` terms) to one string is not equal
to a different string. -/
theorem MetaVal.eqStr_exclusive (fr : MetaVal) (a b : String) (hab : a ≠ b)
    (h : fr.eqStr a = true) : fr.eqStr b = false := by
  cases fr with
  | str s =>
    simp [MetaVal.eqStr] at h ⊢
    intro hb
    exact hab (h ▸ hb ▸ rfl)
  | optStr o =>
    cases o with
    | none => simp [MetaVal.eqStr] at h
    | some s =>
      simp [MetaVal.eqStr] at h ⊢
      intro hb
      exact hab (h ▸ hb ▸ rfl)
  | nat n => simp [MetaVal.eqStr] at h
  | usage u => simp [MetaVal.eqStr] at h

/-- A non-int `n` in the merged options makes the streaming branch raise
a `TypeError` at the comparison. -/
theorem run_stream_typeError (g : Generator) (messages : List ChatMessage)
    (kw : Option Kwargs) (raw : List RawChunk)
    (hn : getNumResponses (dictUpdate g.generation_kwargs (kw.getD [])) = none) :
    (g.run messages kw (.stream raw)).outcome = .error .typeError := by
  unfold Generator.run
  simp only [hn]

/-! ## Claims -/

/-- C1 (counterexample): with a streaming callback configured and per-call
`n = 2`, `run` does issue the transport `completions.create` call
(`transportCalled = true`) and only then raises the `ValueError` — the
claim's "no transport invocation occurs" is false on the code (the check
sits after `create`, on the returned stream object); the streaming
callback is indeed never called. -/
theorem run_n2_streaming_transport_was_called :
    (streamingGen.run [] (some [("n", GenVal.int 2)]) (.stream [])).transportCalled
        = true ∧
    (streamingGen.run [] (some [("n", GenVal.int 2)]) (.stream [])).outcome
        = .error .valueError ∧
    (streamingGen.run [] (some [("n", GenVal.int 2)]) (.stream [])).callbackCalls
        = [] := ⟨rfl, rfl, rfl⟩

/-- C1 (amended): when a streaming callback is configured and the merged
options bind `n` to a value greater than 1, `run` raises `ValueError`
before consuming any chunk, so the streaming callback is never called —
but the transport `completions.create` call has already been issued. -/
theorem run_n_gt1_streaming_fails_before_consuming (g : Generator)
    (messages : List ChatMessage) (kw : Option Kwargs) (raw : List RawChunk)
    (n : Int)
    (hcb : g.streaming_callback.isSome)
    (hn : getNumResponses (dictUpdate g.generation_kwargs (kw.getD [])) = some n)
    (h2 : n > 1) :
    (g.run messages kw (.stream raw)).outcome = .error .valueError ∧
    (g.run messages kw (.stream raw)).callbackCalls = [] ∧
    (g.run messages kw (.stream raw)).transportCalled = true := by
  obtain ⟨h1, hcalls⟩ := run_stream_n_gt1 g messages kw raw n hn h2
  exact ⟨h1, hcalls, run_transportCalled g messages kw (.stream raw)⟩

/-- C1 witness: the amended theorem at `n = 2` on `streamingGen`. -/
theorem run_n_gt1_streaming_fails_before_consuming_witness :
    streamingGen.streaming_callback.isSome = true ∧
    getNumResponses (dictUpdate streamingGen.generation_kwargs
        ((some [("n", GenVal.int 2)]).getD [])) = some 2 ∧
    ((2 : Int) > 1) ∧
    ((streamingGen.run [] (some [("n", GenVal.int 2)]) (.stream [emptyDeltaChunk])).outcome
        = .error .valueError ∧
     (streamingGen.run [] (some [("n", GenVal.int 2)]) (.stream [emptyDeltaChunk])).callbackCalls = [] ∧
     (streamingGen.run [] (some [("n", GenVal.int 2)]) (.stream [emptyDeltaChunk])).transportCalled = true) :=
  ⟨rfl, rfl, by decide,
   run_n_gt1_streaming_fails_before_consuming streamingGen []
     (some [("n", GenVal.int 2)]) [emptyDeltaChunk] 2 rfl rfl (by decide)⟩

/-- C2 (counterexample): a chunk with a choice whose delta carries no
content IS both buffered and delivered to the callback (with content
`""`) — the claim's "chunks with empty content are neither buffered nor
delivered" is false on the code, which gates on `chunk.choices` being
non-empty, not on non-empty content. -/
theorem empty_content_chunk_is_delivered :
    ((streamingGen.run [] none (.stream [emptyDeltaChunk])).callbackCalls.map
        (fun ch => ch.content)) = [""] ∧
    (streamingGen.run [] none (.stream [emptyDeltaChunk])).callbackCalls.length = 1 :=
  ⟨rfl, rfl⟩

/-- C2 (amended): in streaming mode with `n ≤ 1`, the delivery trace
equals the arrival-ordered conversion of exactly those chunks whose
choice list is non-empty — each such chunk is buffered and synchronously
delivered exactly once, in arrival order (the buffer and the callback
trace are the same list, so each delivery completes before the next chunk
is processed); chunks with no choices — not chunks with empty content —
are neither buffered nor delivered. -/
theorem stream_delivery_trace (g : Generator) (messages : List ChatMessage)
    (kw : Option Kwargs) (raw : List RawChunk) (n : Int)
    (hcb : g.streaming_callback.isSome)
    (hn : getNumResponses (dictUpdate g.generation_kwargs (kw.getD [])) = some n)
    (hle : ¬ n > 1) :
    (g.run messages kw (.stream raw)).callbackCalls
      = raw.filterMap (fun c => (c.choices.head?).map (buildChunk c)) := by
  obtain ⟨h1, _⟩ := run_stream_branch g messages kw raw n hn hle
  rw [h1]
  have hcb2 : g.streaming_callback.isSome = true := hcb
  rw [hcb2, processChunks_filterMap]

/-- C2 witness: the amended theorem on a stream with a choice-less chunk
followed by an empty-content chunk. -/
theorem stream_delivery_trace_witness :
    streamingGen.streaming_callback.isSome = true ∧
    getNumResponses (dictUpdate streamingGen.generation_kwargs
        ((none : Option Kwargs).getD [])) = some 1 ∧
    ¬ ((1 : Int) > 1) ∧
    (streamingGen.run [] none (.stream [noChoiceChunk, emptyDeltaChunk])).callbackCalls
      = [noChoiceChunk, emptyDeltaChunk].filterMap
          (fun c => (c.choices.head?).map (buildChunk c)) :=
  ⟨rfl, rfl, by decide,
   stream_delivery_trace streamingGen [] none [noChoiceChunk, emptyDeltaChunk] 1
     rfl rfl (by decide)⟩

/-- C3: when the last chunk observed has a choice, the accumulator yields
exactly one finalized assistant message whose content is the
concatenation of the buffered chunk texts in arrival order, whose meta
takes model and finish reason from that last chunk, whose index is
normalized to 0 and whose usage is the empty mapping; and concatenation
is order-sensitive: `["Hel","lo"]` gives `"Hello"` while the reversed
`["lo","Hel"]` gives the different `"loHel"`. -/
theorem connect_chunks_finalizes (c : RawChunk) (ch : ChunkChoice)
    (chunks : List StreamingChunk) (h : c.choices.head? = some ch) :
    connectChunks (some c) chunks = .ok
      { content := joinedContent chunks, role := ChatRole.assistant,
        name := none,
        meta := [("model", MetaVal.str c.model), ("index", MetaVal.nat 0),
                 ("finish_reason", MetaVal.optStr ch.finish_reason),
                 ("usage", MetaVal.usage [])] } ∧
    joinedContent [{ content := "Hel", meta := [] }, { content := "lo", meta := [] }]
        = "Hello" ∧
    joinedContent [{ content := "lo", meta := [] }, { content := "Hel", meta := [] }]
        = "loHel" ∧
    ("Hello" : String) ≠ "loHel" := by
  refine ⟨?_, rfl, rfl, by decide⟩
  simp [connectChunks, h, dictUpdate_nil, ChatMessage.from_assistant]

/-- C3 witness: the accumulator on the `["Hel","lo"]` buffer with a
concrete last chunk. -/
theorem connect_chunks_finalizes_witness :
    emptyDeltaChunk.choices.head?
        = some { delta := { content := none, function_call := none },
                 index := 0, finish_reason := some "stop" } ∧
    (connectChunks (some emptyDeltaChunk)
        [{ content := "Hel", meta := [] }, { content := "lo", meta := [] }] = .ok
      { content := joinedContent
            [{ content := "Hel", meta := [] }, { content := "lo", meta := [] }],
        role := ChatRole.assistant, name := none,
        meta := [("model", MetaVal.str emptyDeltaChunk.model),
                 ("index", MetaVal.nat 0),
                 ("finish_reason", MetaVal.optStr (some "stop")),
                 ("usage", MetaVal.usage [])] } ∧
     joinedContent [{ content := "Hel", meta := [] }, { content := "lo", meta := [] }]
        = "Hello" ∧
     joinedContent [{ content := "lo", meta := [] }, { content := "Hel", meta := [] }]
        = "loHel" ∧
     ("Hello" : String) ≠ "loHel") :=
  ⟨rfl, connect_chunks_finalizes emptyDeltaChunk
     { delta := { content := none, function_call := none },
       index := 0, finish_reason := some "stop" }
     [{ content := "Hel", meta := [] }, { content := "lo", meta := [] }] rfl⟩

/-- C4: a successful non-streaming build returns one finalized message
per choice, in choice order; a `"function_call"` choice's content is the
JSON encoding of the call name and raw argument string, any other
choice's content is the generated text verbatim; every message carries
the completion's model identifier, its choice's index and finish reason,
and a copy of the completion-level usage counters — the same counters for
every choice of the completion. -/
theorem build_per_choice (completion : Completion) (msgs : List ChatMessage)
    (h : buildMessages completion completion.choices = .ok msgs) :
    msgs.length = completion.choices.length ∧
    ∀ (i : Nat) ch m, completion.choices[i]? = some ch → msgs[i]? = some m →
      m.role = ChatRole.assistant ∧
      (∀ fc, ch.finish_reason = some "function_call" →
        ch.message.function_call = some fc →
        m.content = jsonDumpsFunctionCall fc.name fc.arguments) ∧
      (ch.finish_reason ≠ some "function_call" →
        m.content = ch.message.content) ∧
      List.lookup "model" m.meta = some (MetaVal.str completion.model) ∧
      List.lookup "index" m.meta = some (MetaVal.nat ch.index) ∧
      List.lookup "finish_reason" m.meta = some (MetaVal.optStr ch.finish_reason) ∧
      List.lookup "usage" m.meta = some (MetaVal.usage completion.usage) := by
  obtain ⟨hlen, hpt⟩ := buildMessages_ok_pointwise completion completion.choices msgs h
  refine ⟨hlen, ?_⟩
  intro i ch m h1 h2
  obtain ⟨hrole, hname, hmeta, hfc, hplain⟩ :=
    build_message_ok completion ch m (hpt i ch m h1 h2)
  refine ⟨hrole, hfc, hplain, ?_, ?_, ?_, ?_⟩ <;> rw [hmeta] <;> rfl

/-- C4 witness: the two-choice completion, one text and one function
call. -/
theorem build_per_choice_witness :
    buildMessages twoChoiceCompletion twoChoiceCompletion.choices
        = .ok twoChoiceMessages ∧
    (twoChoiceMessages.length = twoChoiceCompletion.choices.length ∧
     ∀ (i : Nat) ch m, twoChoiceCompletion.choices[i]? = some ch →
        twoChoiceMessages[i]? = some m →
        m.role = ChatRole.assistant ∧
        (∀ fc, ch.finish_reason = some "function_call" →
          ch.message.function_call = some fc →
          m.content = jsonDumpsFunctionCall fc.name fc.arguments) ∧
        (ch.finish_reason ≠ some "function_call" →
          m.content = ch.message.content) ∧
        List.lookup "model" m.meta = some (MetaVal.str twoChoiceCompletion.model) ∧
        List.lookup "index" m.meta = some (MetaVal.nat ch.index) ∧
        List.lookup "finish_reason" m.meta
            = some (MetaVal.optStr ch.finish_reason) ∧
        List.lookup "usage" m.meta
            = some (MetaVal.usage twoChoiceCompletion.usage)) :=
  ⟨rfl, build_per_choice twoChoiceCompletion twoChoiceMessages rfl⟩

/-- C5: encoding to wire format yields one record per message, in order;
each record contains exactly those of the fields role, content, name
whose source value is present and non-empty — in particular a message
with an empty or absent name yields a record with no name key at all. -/
theorem convert_to_openai_format_fields (messages : List ChatMessage)
    (i : Nat) (m : ChatMessage) (hm : messages[i]? = some m) :
    (convertToOpenAIFormat messages).length = messages.length ∧
    ∃ r : WireRecord, (convertToOpenAIFormat messages)[i]? = some r ∧
      r.role = some m.role.asString ∧
      (m.content ≠ "" → r.content = some m.content) ∧
      (m.content = "" → r.content = none) ∧
      (∀ s, m.name = some s → s ≠ "" → r.name = some s) ∧
      ((m.name = none ∨ m.name = some "") → r.name = none) := by
  constructor
  · simp [convertToOpenAIFormat]
  refine ⟨{ content := if m.content ≠ "" then some m.content else none,
            role := if m.role.asString ≠ "" then some m.role.asString else none,
            name := if truthyOptStr m.name then m.name else none },
          ?_, ?_, ?_, ?_, ?_, ?_⟩
  · unfold convertToOpenAIFormat
    rw [List.getElem?_map, hm]
    rfl
  · cases m.role <;> rfl
  · intro h
    simp [h]
  · intro h
    simp [h]
  · intro s hs hne
    rw [hs]
    simp [truthyOptStr, hne]
  · intro hcase
    cases hcase with
    | inl h => simp [h, truthyOptStr]
    | inr h => simp [h, truthyOptStr]

/-- C5 witness: a user message with an empty name. -/
theorem convert_to_openai_format_fields_witness :
    ([nameEmptyMsg])[0]? = some nameEmptyMsg ∧
    ((convertToOpenAIFormat [nameEmptyMsg]).length = [nameEmptyMsg].length ∧
     ∃ r : WireRecord, (convertToOpenAIFormat [nameEmptyMsg])[0]? = some r ∧
       r.role = some nameEmptyMsg.role.asString ∧
       (nameEmptyMsg.content ≠ "" → r.content = some nameEmptyMsg.content) ∧
       (nameEmptyMsg.content = "" → r.content = none) ∧
       (∀ s, nameEmptyMsg.name = some s → s ≠ "" → r.name = some s) ∧
       ((nameEmptyMsg.name = none ∨ nameEmptyMsg.name = some "") → r.name = none)) :=
  ⟨rfl, convert_to_openai_format_fields [nameEmptyMsg] 0 nameEmptyMsg rfl⟩

/-- C6: on a finalized message (meta binds finish_reason and index), the
finish-reason inspection raises nothing (`isSome`) and — purely
observationally, the message itself is untouched — reports exactly one
truncation warning carrying the choice index when the finish reason is
`"length"`, exactly one content-filter warning when it is
`"content_filter"`, and nothing for any other finish reason including
`None`. -/
theorem check_finish_reason_policy (m : ChatMessage) (fr idx : MetaVal)
    (hfr : List.lookup "finish_reason" m.meta = some fr)
    (hidx : List.lookup "index" m.meta = some idx) :
    (checkFinishReason m).isSome ∧
    (fr.eqStr "length" = true →
       checkFinishReason m = some [Warning.lengthTruncation idx]) ∧
    (fr.eqStr "content_filter" = true →
       checkFinishReason m = some [Warning.contentFilter idx]) ∧
    (fr.eqStr "length" = false → fr.eqStr "content_filter" = false →
       checkFinishReason m = some []) := by
  have hch := checkFinishReason_eq m fr idx hfr hidx
  refine ⟨checkFinishReason_some_of_keys m fr idx hfr hidx, ?_, ?_, ?_⟩
  · intro h1
    have h2 := MetaVal.eqStr_exclusive fr "length" "content_filter" (by decide) h1
    rw [hch, h1, h2]
    rfl
  · intro h2
    have h1 := MetaVal.eqStr_exclusive fr "content_filter" "length" (by decide) h2
    rw [hch, h1, h2]
    rfl
  · intro h1 h2
    rw [hch, h1, h2]
    rfl

/-- C6 witness: a finalized message with finish reason `"length"` and
index 3 yields exactly one truncation warning referencing index 3. -/
theorem check_finish_reason_policy_witness :
    List.lookup "finish_reason" lengthMsg.meta
        = some (MetaVal.optStr (some "length")) ∧
    List.lookup "index" lengthMsg.meta = some (MetaVal.nat 3) ∧
    ((checkFinishReason lengthMsg).isSome ∧
     ((MetaVal.optStr (some "length")).eqStr "length" = true →
        checkFinishReason lengthMsg
          = some [Warning.lengthTruncation (MetaVal.nat 3)]) ∧
     ((MetaVal.optStr (some "length")).eqStr "content_filter" = true →
        checkFinishReason lengthMsg
          = some [Warning.contentFilter (MetaVal.nat 3)]) ∧
     ((MetaVal.optStr (some "length")).eqStr "length" = false →
      (MetaVal.optStr (some "length")).eqStr "content_filter" = false →
        checkFinishReason lengthMsg = some [])) :=
  ⟨rfl, rfl, check_finish_reason_policy lengthMsg _ _ rfl rfl⟩

/-- C7: on every call and on every branch, the options sent to the
transport are exactly the stored default options shallowly updated by the
per-call options — a per-call key fully replaces the default's value for
that key and unmentioned default keys survive unchanged — and after `run`
returns or raises, the stored configuration (default options included) is
unchanged. -/
theorem run_options_merge_and_frame (g : Generator)
    (messages : List ChatMessage) (kw : Option Kwargs)
    (resp : TransportResponse) :
    (∀ k : String,
      List.lookup k (g.run messages kw resp).sentOptions
        = match List.lookup k (kw.getD []) with
          | some v => some v
          | none => List.lookup k g.generation_kwargs) ∧
    (g.run messages kw resp).generatorAfter = g := by
  refine ⟨?_, run_generatorAfter g messages kw resp⟩
  intro k
  rw [run_sentOptions, lookup_dictUpdate]
  cases List.lookup k (kw.getD []) <;> rfl

/-- C8: serialization emits the model identifier, a symbolic reference to
the streaming callback (absent when none is configured), the base
endpoint, the organization and the default generation options;
deserializing that record through the registry resolves the symbolic
reference back to the original callback and reconstructs a configuration
equal to the original in all those fields. -/
theorem to_dict_from_dict_roundtrip (reg : Registry) (g : Generator)
    (hres : ∀ cb, g.streaming_callback = some cb →
      cb.key ≠ "" ∧ resolveCallback reg cb.key = some cb) :
    (Generator.to_dict g).streaming_callback
        = Option.map (fun cb => cb.key) g.streaming_callback ∧
    (g.streaming_callback = none →
        (Generator.to_dict g).streaming_callback = none) ∧
    Generator.from_dict reg (Generator.to_dict g) = some g := by
  obtain ⟨mn, gk, sc, ab, og⟩ := g
  refine ⟨rfl, ?_, ?_⟩
  · intro h
    simp only [Generator.to_dict]
    rw [show sc = none from h]
    rfl
  · cases hcb : sc with
    | none =>
      subst hcb
      rfl
    | some cb =>
      subst hcb
      obtain ⟨hkey, hresv⟩ := hres cb rfl
      simp [Generator.to_dict, Generator.from_dict, hkey, hresv]

/-- C8 witness: round trip of `streamingGen` through `sampleRegistry`. -/
theorem to_dict_from_dict_roundtrip_witness :
    (∀ cb, streamingGen.streaming_callback = some cb →
      cb.key ≠ "" ∧ resolveCallback sampleRegistry cb.key = some cb) ∧
    ((Generator.to_dict streamingGen).streaming_callback
        = Option.map (fun cb => cb.key) streamingGen.streaming_callback ∧
     (streamingGen.streaming_callback = none →
        (Generator.to_dict streamingGen).streaming_callback = none) ∧
     Generator.from_dict sampleRegistry (Generator.to_dict streamingGen)
        = some streamingGen) := by
  have hres : ∀ cb, streamingGen.streaming_callback = some cb →
      cb.key ≠ "" ∧ resolveCallback sampleRegistry cb.key = some cb := by
    intro cb h
    rw [show streamingGen.streaming_callback = some sampleCallback from rfl] at h
    injection h with h2
    rw [← h2]
    exact ⟨by decide, rfl⟩
  exact ⟨hres, to_dict_from_dict_roundtrip sampleRegistry streamingGen hres⟩

/-- C9: streaming finalization requires a non-empty stream whose last
chunk has at least one choice: an empty stream makes finalization
dereference the missing last chunk (`AttributeError` on `None`), a last
chunk with an empty choice list makes the first-choice access go out of
bounds (`IndexError`); under the precondition, finalization always
succeeds and `run` returns exactly one message. -/
theorem stream_finalization_preconditions (g : Generator)
    (messages : List ChatMessage) (kw : Option Kwargs) (raw : List RawChunk)
    (n : Int)
    (hn : getNumResponses (dictUpdate g.generation_kwargs (kw.getD [])) = some n)
    (hle : ¬ n > 1) :
    (raw = [] →
      (g.run messages kw (.stream raw)).outcome = .error .attributeError) ∧
    (∀ c, raw.getLast? = some c → c.choices = [] →
      (g.run messages kw (.stream raw)).outcome = .error .indexError) ∧
    (∀ c ch, raw.getLast? = some c → c.choices.head? = some ch →
      ∃ m, (g.run messages kw (.stream raw)).outcome = .ok [m]) := by
  obtain ⟨_, hout⟩ := run_stream_branch g messages kw raw n hn hle
  refine ⟨?_, ?_, ?_⟩
  · intro hraw
    subst hraw
    rw [hout]
    rfl
  · intro c hlast hcs
    rw [hout, hlast]
    simp [connectChunks, hcs]
  · intro c ch hlast hch
    rw [hout, hlast]
    cases hconn : connectChunks (some c)
        (processChunks g.streaming_callback.isSome raw) with
    | error e =>
      exfalso
      simp [connectChunks, hch] at hconn
    | ok msg =>
      obtain ⟨c2, ch2, hc2, hch2, hmsg⟩ := connect_chunks_ok _ _ _ hconn
      have hsome : (postProcess [msg]).isSome := by
        apply postProcess_isSome
        intro x hx
        rw [List.mem_singleton] at hx
        rw [hx]
        refine checkFinishReason_some_of_keys msg (MetaVal.optStr ch2.finish_reason)
          (MetaVal.nat 0) ?_ ?_ <;> rw [hmsg] <;> rfl
      obtain ⟨ws, hws⟩ := Option.isSome_iff_exists.mp hsome
      dsimp only
      rw [hws]
      exact ⟨msg, rfl⟩

/-- C9 witness: the empty-stream case on `streamingGen`. -/
theorem stream_finalization_preconditions_witness :
    getNumResponses (dictUpdate streamingGen.generation_kwargs
        ((none : Option Kwargs).getD [])) = some 1 ∧
    ¬ ((1 : Int) > 1) ∧
    (((([] : List RawChunk) = []) →
      (streamingGen.run [] none (.stream [])).outcome = .error .attributeError) ∧
     (∀ c, ([] : List RawChunk).getLast? = some c → c.choices = [] →
      (streamingGen.run [] none (.stream [])).outcome = .error .indexError) ∧
     (∀ c ch, ([] : List RawChunk).getLast? = some c → c.choices.head? = some ch →
      ∃ m, (streamingGen.run [] none (.stream [])).outcome = .ok [m])) :=
  ⟨rfl, by decide,
   stream_finalization_preconditions streamingGen [] none [] 1 rfl (by decide)⟩

/-- C10: every message `run` returns, on the streaming and the
non-streaming path alike, is an assistant-role message whose metadata
binds all four keys model, index, finish_reason and usage — hence the
finish-reason inspection's keyed lookups never fail on engine-produced
messages. -/
theorem run_replies_assistant_with_meta (g : Generator)
    (messages : List ChatMessage) (kw : Option Kwargs)
    (resp : TransportResponse) (msgs : List ChatMessage)
    (h : (g.run messages kw resp).outcome = .ok msgs) :
    ∀ m ∈ msgs, m.role = ChatRole.assistant ∧
      (List.lookup "model" m.meta).isSome ∧
      (List.lookup "index" m.meta).isSome ∧
      (List.lookup "finish_reason" m.meta).isSome ∧
      (List.lookup "usage" m.meta).isSome ∧
      (checkFinishReason m).isSome := by
  cases resp with
  | stream raw =>
    cases hn : getNumResponses (dictUpdate g.generation_kwargs (kw.getD [])) with
    | none =>
      rw [run_stream_typeError g messages kw raw hn] at h
      cases h
    | some n =>
      by_cases h2 : n > 1
      · obtain ⟨h1, _⟩ := run_stream_n_gt1 g messages kw raw n hn h2
        rw [h1] at h
        cases h
      · obtain ⟨_, hout⟩ := run_stream_branch g messages kw raw n hn h2
        rw [hout] at h
        cases hc : connectChunks raw.getLast?
            (processChunks g.streaming_callback.isSome raw) with
        | error e => rw [hc] at h; cases h
        | ok m0 =>
          rw [hc] at h
          dsimp only at h
          cases hp : postProcess [m0] with
          | none => rw [hp] at h; cases h
          | some ws =>
            rw [hp] at h
            dsimp only at h
            have hmsgs : [m0] = msgs := by injection h
            rw [← hmsgs]
            obtain ⟨c, ch, hoc, hch, hm0⟩ := connect_chunks_ok _ _ _ hc
            intro m hm
            rw [List.mem_singleton] at hm
            rw [hm, hm0]
            exact ⟨rfl, rfl, rfl, rfl, rfl,
              checkFinishReason_some_of_keys _ (MetaVal.optStr ch.finish_reason)
                (MetaVal.nat 0) rfl rfl⟩
  | completion c =>
    rw [run_completion_branch g messages kw c] at h
    cases hb : buildMessages c c.choices with
    | error e => rw [hb] at h; cases h
    | ok msgs0 =>
      rw [hb] at h
      dsimp only at h
      cases hp : postProcess msgs0 with
      | none => rw [hp] at h; cases h
      | some ws =>
        rw [hp] at h
        dsimp only at h
        have hmsgs : msgs0 = msgs := by injection h
        rw [← hmsgs]
        intro m hm
        obtain ⟨ch, hbm⟩ := buildMessages_ok_mem c c.choices msgs0 hb m hm
        obtain ⟨hrole, hname, hmeta, _, _⟩ := build_message_ok c ch m hbm
        have hfrl : List.lookup "finish_reason" m.meta
            = some (MetaVal.optStr ch.finish_reason) := by rw [hmeta]; rfl
        have hixl : List.lookup "index" m.meta = some (MetaVal.nat ch.index) := by
          rw [hmeta]
          rfl
        refine ⟨hrole, ?_, ?_, ?_, ?_, ?_⟩
        · rw [hmeta]; rfl
        · rw [hixl]; rfl
        · rw [hfrl]; rfl
        · rw [hmeta]; rfl
        · exact checkFinishReason_some_of_keys m _ _ hfrl hixl

/-- C10 witness: the streaming run over one choice-carrying chunk. -/
theorem run_replies_assistant_with_meta_witness :
    (streamingGen.run [] none (.stream [emptyDeltaChunk])).outcome
        = .ok [{ content := "", role := ChatRole.assistant, name := none,
                 meta := [("model", MetaVal.str "gpt-3.5-turbo"),
                          ("index", MetaVal.nat 0),
                          ("finish_reason", MetaVal.optStr (some "stop")),
                          ("usage", MetaVal.usage [])] }] ∧
    (∀ m ∈ [({ content := "", role := ChatRole.assistant, name := none,
               meta := [("model", MetaVal.str "gpt-3.5-turbo"),
                        ("index", MetaVal.nat 0),
                        ("finish_reason", MetaVal.optStr (some "stop")),
                        ("usage", MetaVal.usage [])] } : ChatMessage)],
      m.role = ChatRole.assistant ∧
      (List.lookup "model" m.meta).isSome ∧
      (List.lookup "index" m.meta).isSome ∧
      (List.lookup "finish_reason" m.meta).isSome ∧
      (List.lookup "usage" m.meta).isSome ∧
      (checkFinishReason m).isSome) :=
  ⟨rfl, run_replies_assistant_with_meta streamingGen [] none
     (.stream [emptyDeltaChunk]) _ rfl⟩

end Haystack
